import Mathlib

/-!
Verification development for the cocoon-contracts settlement protocol
(Registry / Broker(Proxy) / Worker / Client accounts).

The on-chain contract sources (contracts/cocoon_proxy.fc, cocoon_worker.fc,
cocoon_client.fc and their Tolk variants) are referenced by the build
configuration but are not part of the available tree, so the account state
machines below are modelled from the specification (spec.md sections 3, 4, 6,
7) and cross-checked against the expectations encoded by the repository's
test suite (src/tests and the unnamed test parts) and the message/state cell
layouts in src/wrappers.

Modelling conventions:
  - addresses, keys and coin amounts are natural numbers;
  - Ed25519 signatures are modelled symbolically: an attestation carries the
    key that produced its signature, and the signature verifies exactly when
    that key equals the stored broker public key (perfect-cryptography
    abstraction);
  - a transaction that fails aborts with a numeric exit code and rolls back
    every state change, which the model renders as Except.error code with
    the account state untouched;
  - outbound messages other than the Broker's payouts are irrelevant to the
    claims and are not tracked for Worker/Client accounts.
-/

namespace Cocoon

/-- Lifecycle state of an account: 0 = NORMAL (Open), 1 = CLOSING, 2 = CLOSED,
matching STATE_NORMAL / STATE_CLOSING / STATE_CLOSED in the test fixtures. -/
inductive AccState where
  | normal
  | closing
  | closed
deriving DecidableEq

/-- Numeric rank of a lifecycle state; transitions must never decrease it. -/
def stateRank : AccState → Nat
  | .normal => 0
  | .closing => 1
  | .closed => 2

/-- Exit code 1000, StaleCounter (ERROR_OLD_MESSAGE in the test fixtures). -/
def ERROR_OLD_MESSAGE : Nat := 1000

/-- Exit code 1001, LowSmcBalance. -/
def ERROR_LOW_SMC_BALANCE : Nat := 1001

/-- Exit code 1003, LowValue (ERROR_LOW_MSG_VALUE). -/
def ERROR_LOW_MSG_VALUE : Nat := 1003

/-- Exit code 1006, operation on an account past its permitted state. -/
def ERROR_CLOSED : Nat := 1006

/-- Exit code 1007, attestation signature failed verification. -/
def ERROR_BAD_SIGNATURE : Nat := 1007

/-- Exit code 1009, caller is not the recorded owner (withdraw path). -/
def ERROR_EXPECTED_OWNER : Nat := 1009

/-- Exit code 1010, message sender is not the recorded owner. -/
def ERROR_EXPECTED_MESSAGE_FROM_OWNER : Nat := 1010

/-- Exit code 1011, close completion attempted before the timelock elapsed. -/
def ERROR_NOT_UNLOCKED_YET : Nat := 1011

/-- Exit code 1014, inbound inter-account message sender does not match the
deterministically derived counterpart address (AddressMismatch). -/
def ERROR_CONTRACT_ADDRESS_MISMATCH : Nat := 1014

/-- Exit code 1015, attestation target address is not this account's address
(AddressMismatch for signed payloads). -/
def ERROR_EXPECTED_MY_ADDRESS : Nat := 1015

instance {e a : Type} [DecidableEq e] [DecidableEq a] : DecidableEq (Except e a) := fun x y =>
  match x, y with
  | .ok u, .ok v =>
      if h : u = v then isTrue (by rw [h]) else isFalse (fun hc => h (Except.ok.inj hc))
  | .error u, .error v =>
      if h : u = v then isTrue (by rw [h]) else isFalse (fun hc => h (Except.error.inj hc))
  | .ok _, .error _ => isFalse (fun hc => Except.noConfusion hc)
  | .error _, .ok _ => isFalse (fun hc => Except.noConfusion hc)

/-- Opcode 0xc59a7cd3 of an outbound payout message. -/
def OP_PAYOUT : Nat := 0xc59a7cd3

/-- Opcode 0x2565934c of an outbound excesses-refund message. -/
def OP_EXCESSES : Nat := 0x2565934c

/-- Modelled from the spec (section 6): flat forwarding cost that the attached
message value must cover beyond the economic amount being moved. The concrete
magnitude is irrelevant to every claim; it only needs to be positive. -/
def msgCommission : Nat := 1

/-- A broker-signed usage attestation over (opcode, query_id, new cumulative
counter, target account address). The opcode is carried by the message
constructor; sigKey symbolically records which secret key signed it. -/
structure Attestation where
  queryId : Nat
  newCounter : Nat
  targetAddress : Nat
  sigKey : Nat
deriving DecidableEq

/-- Modelled from the spec (section 4.1): shared signed-attestation
verification, parameterized by the counter-comparison policy. Checks are
ordered signature, then target-address cross-binding, then counter
monotonicity; strict = true demands newCounter strictly above the stored
counter (payout/charge), strict = false demands newCounter at least the
stored counter (last-payout/grant-refund). Returns the exit code of the
first failing check, none on success. -/
def checkAttestation (pubkey myAddr stored : Nat) (strict : Bool)
    (a : Attestation) : Option Nat :=
  if a.sigKey ≠ pubkey then some ERROR_BAD_SIGNATURE
  else if a.targetAddress ≠ myAddr then some ERROR_EXPECTED_MY_ADDRESS
  else if (if strict then a.newCounter ≤ stored else a.newCounter < stored) then
    some ERROR_OLD_MESSAGE
  else none

/-- Worker account storage, following cocoonWorkerConfigToCell in
src/wrappers/CocoonWorker.ts plus the account's own address (needed for the
attestation cross-binding check). -/
structure WorkerState where
  myAddress : Nat
  ownerAddress : Nat
  proxyAddress : Nat
  proxyPublicKey : Nat
  state : AccState
  tokens : Nat
deriving DecidableEq

/-- Inbound Worker messages: owner registration, and the two broker-signed
payout claims (PayoutRequest 0xa040ad28 and LastPayoutRequest 0xf5f26a36). -/
inductive WorkerMsg where
  | register (sender sendExcessesTo : Nat)
  | payoutRequest (sender : Nat) (a : Attestation)
  | lastPayoutRequest (sender : Nat) (a : Attestation)
deriving DecidableEq

/-- Modelled from the spec (section 4.3): the Worker account state machine.
Every message to a CLOSED worker fails with ERROR_CLOSED; register is
owner-only; payout applies the strict counter policy and keeps the state;
last-payout applies the greater-or-equal policy and closes the worker. -/
def workerStep (w : WorkerState) (m : WorkerMsg) : Except Nat WorkerState :=
  if w.state = .closed then .error ERROR_CLOSED
  else match m with
  | .register sender _ =>
      if sender ≠ w.ownerAddress then .error ERROR_EXPECTED_MESSAGE_FROM_OWNER
      else .ok w
  | .payoutRequest _ a =>
      match checkAttestation w.proxyPublicKey w.myAddress w.tokens true a with
      | some e => .error e
      | none => .ok { w with tokens := a.newCounter }
  | .lastPayoutRequest _ a =>
      match checkAttestation w.proxyPublicKey w.myAddress w.tokens false a with
      | some e => .error e
      | none => .ok { w with tokens := a.newCounter, state := .closed }

/-- Client account storage, following cocoonClientConfigToCell in
src/wrappers/CocoonClient.ts plus the account's own address and the
client_delay_before_close parameter from the embedded Params. -/
structure ClientState where
  myAddress : Nat
  ownerAddress : Nat
  proxyAddress : Nat
  proxyPublicKey : Nat
  state : AccState
  balance : Nat
  stake : Nat
  tokensUsed : Nat
  unlockTs : Nat
  secretHash : Nat
  clientDelayBeforeClose : Nat
deriving DecidableEq

/-- Inbound Client messages, one constructor per opcode handled by
src/wrappers/CocoonClient.ts. -/
inductive ClientMsg where
  | extTopUp (sender msgValue coins sendExcessesTo : Nat)
  | ownerChangeSecretHashAndTopUp (sender msgValue coins newSecretHash sendExcessesTo : Nat)
  | ownerRegister (sender nonce sendExcessesTo : Nat)
  | ownerChangeSecretHash (sender newSecretHash sendExcessesTo : Nat)
  | ownerIncreaseStake (sender newStake sendExcessesTo : Nat)
  | ownerWithdraw (sender sendExcessesTo : Nat)
  | ownerRequestRefund (sender sendExcessesTo : Nat)
  | extClientChargeSigned (sender : Nat) (a : Attestation)
  | extClientGrantRefundSigned (sender : Nat) (a : Attestation)
deriving DecidableEq

/-- Modelled from the spec (section 4.4): the Client account state machine.
Every message to a CLOSED client fails with ERROR_CLOSED. Top-ups add to the
balance when the attached value covers the amount plus forwarding cost.
owner_increase_stake accepts only a strictly larger stake (rejecting with
exit code 1003, as the test suite asserts). owner_withdraw reduces the
balance to exactly the stake and fails with ERROR_LOW_SMC_BALANCE when the
balance does not exceed the stake. owner_request_refund is the two-phase
close: from NORMAL it cuts the balance to the stake, enters CLOSING and arms
the timelock; from CLOSING it fails with ERROR_NOT_UNLOCKED_YET before the
timelock and otherwise zeroes the balance and closes. charge applies the
strict counter policy; grant_refund applies the greater-or-equal policy,
zeroes the balance and closes. -/
def clientStep (now : Nat) (c : ClientState) (m : ClientMsg) : Except Nat ClientState :=
  if c.state = .closed then .error ERROR_CLOSED
  else match m with
  | .extTopUp _ v coins _ =>
      if v < coins + msgCommission then .error ERROR_LOW_MSG_VALUE
      else .ok { c with balance := c.balance + coins }
  | .ownerChangeSecretHashAndTopUp s v coins h _ =>
      if s ≠ c.ownerAddress then .error ERROR_EXPECTED_MESSAGE_FROM_OWNER
      else if v < coins + msgCommission then .error ERROR_LOW_MSG_VALUE
      else .ok { c with balance := c.balance + coins, secretHash := h }
  | .ownerRegister s _ _ =>
      if s ≠ c.ownerAddress then .error ERROR_EXPECTED_MESSAGE_FROM_OWNER
      else .ok c
  | .ownerChangeSecretHash s h _ =>
      if s ≠ c.ownerAddress then .error ERROR_EXPECTED_MESSAGE_FROM_OWNER
      else .ok { c with secretHash := h }
  | .ownerIncreaseStake s ns _ =>
      if s ≠ c.ownerAddress then .error ERROR_EXPECTED_MESSAGE_FROM_OWNER
      else if ns ≤ c.stake then .error ERROR_LOW_MSG_VALUE
      else .ok { c with stake := ns }
  | .ownerWithdraw s _ =>
      if s ≠ c.ownerAddress then .error ERROR_EXPECTED_OWNER
      else if c.balance ≤ c.stake then .error ERROR_LOW_SMC_BALANCE
      else .ok { c with balance := c.stake }
  | .ownerRequestRefund s _ =>
      if s ≠ c.ownerAddress then .error ERROR_EXPECTED_MESSAGE_FROM_OWNER
      else match c.state with
      | .normal =>
          .ok { c with
                balance := c.stake
                state := .closing
                unlockTs := now + c.clientDelayBeforeClose }
      | _ =>
          if now < c.unlockTs then .error ERROR_NOT_UNLOCKED_YET
          else .ok { c with balance := 0, state := .closed }
  | .extClientChargeSigned _ a =>
      match checkAttestation c.proxyPublicKey c.myAddress c.tokensUsed true a with
      | some e => .error e
      | none => .ok { c with tokensUsed := a.newCounter }
  | .extClientGrantRefundSigned _ a =>
      match checkAttestation c.proxyPublicKey c.myAddress c.tokensUsed false a with
      | some e => .error e
      | none => .ok { c with tokensUsed := a.newCounter, balance := 0, state := .closed }

/-- Outbound message emitted by the Broker while processing a settlement. -/
structure OutMessage where
  dest : Nat
  amount : Nat
  op : Nat
deriving DecidableEq

/-- Broker (Proxy) account storage, following cocoonProxyConfigToCell in
src/wrappers/CocoonProxy.ts plus the account's own address and the
proxy_delay_before_close parameter from the embedded Params. -/
structure ProxyState where
  myAddress : Nat
  ownerAddress : Nat
  proxyPublicKey : Nat
  rootAddress : Nat
  state : AccState
  balance : Nat
  stake : Nat
  unlockTs : Nat
  proxyDelayBeforeClose : Nat
deriving DecidableEq

/-- Modelled from the spec (section 9, deterministic cross-account
addressing): the Worker address is a collision-free function of the worker
code image and its canonical initial data (owner, proxy address, proxy public
key, Params without code refs), mirrored here by an injective pairing. -/
def calculateWorkerAddress (proxyAddress proxyPublicKey ownerAddress : Nat) : Nat :=
  Nat.pair 1 (Nat.pair proxyAddress (Nat.pair proxyPublicKey ownerAddress))

/-- Modelled from the spec (section 9): deterministic Client address
derivation from the client code image and canonical initial data, mirrored
by an injective pairing distinct from the worker derivation. -/
def calculateClientAddress (proxyAddress proxyPublicKey ownerAddress : Nat) : Nat :=
  Nat.pair 2 (Nat.pair proxyAddress (Nat.pair proxyPublicKey ownerAddress))

/-- A broker-signed close authorization over (opcode, query_id, target
address); unlike usage attestations it carries no counter. -/
structure CloseAttestation where
  queryId : Nat
  targetAddress : Nat
  sigKey : Nat
deriving DecidableEq

/-- Modelled from the spec (section 4.1, specialized): verification of a
signed close request, checking the signature and then the target-address
cross-binding. -/
def checkCloseAttestation (pubkey myAddr : Nat) (a : CloseAttestation) : Option Nat :=
  if a.sigKey ≠ pubkey then some ERROR_BAD_SIGNATURE
  else if a.targetAddress ≠ myAddr then some ERROR_EXPECTED_MY_ADDRESS
  else none

/-- Payload of a WorkerProxyRequest settlement (0x4d725d2c carrying a
WorkerProxyPayoutRequest 0x08e7d036), or none for an empty payload. -/
inductive WorkerPayload where
  | payoutRequest (workerPart proxyPart sendExcessesTo : Nat)
deriving DecidableEq

/-- Payload of a ClientProxyRequest settlement (0x65448ff4): top-up
0x5cfc6b87, register 0xa35cb580, refund-granted 0xc68ebc7b or refund-force
0xf4c354c9. -/
inductive ClientPayload where
  | topUp (coins sendExcessesTo : Nat)
  | register
  | refundGranted (coins sendExcessesTo : Nat)
  | refundForce (coins sendExcessesTo : Nat)
deriving DecidableEq

/-- Inbound Broker messages, one constructor per opcode handled by
src/wrappers/CocoonProxy.ts (text commands, owner ops, signed close ops and
the two inter-account settlement entry points). -/
inductive ProxyMsg where
  | textClose (sender : Nat)
  | textWithdraw (sender : Nat)
  | ownerProxyClose (sender sendExcessesTo : Nat)
  | extProxyCloseRequestSigned (sender sendExcessesTo : Nat) (a : CloseAttestation)
  | extProxyCloseCompleteRequestSigned (sender sendExcessesTo : Nat) (a : CloseAttestation)
  | extProxyPayoutRequest (sender sendExcessesTo : Nat)
  | extProxyIncreaseStake (sender grams sendExcessesTo : Nat)
  | workerProxyRequest (sender workerOwner : Nat) (payload : Option WorkerPayload)
  | clientProxyRequest (sender clientOwner : Nat) (payload : Option ClientPayload)
deriving DecidableEq

/-- Modelled from the spec (section 4.2): the Broker (Proxy) account state
machine. Close paths move NORMAL to CLOSING (arming the timelock) and, via
the signed close-complete while CLOSING and unlocked, to CLOSED with balance
and stake zeroed. Withdraw/payout/increase-stake are owner operations
rejected with ERROR_CLOSED once CLOSED. The settlement entry points accept
an empty payload as a success no-op before any check; with a payload they
first check the deterministic sender-address derivation, then the lifecycle
state. A client top-up adds to the balance only while NORMAL and otherwise
succeeds while bouncing the funds back to the client owner; a forced refund
draws from the stake, capped at the available stake. -/
def proxyStep (now : Nat) (p : ProxyState) (m : ProxyMsg) :
    Except Nat (ProxyState × List OutMessage) :=
  match m with
  | .textClose s =>
      if p.state ≠ .normal then .error ERROR_CLOSED
      else if s ≠ p.ownerAddress then .error ERROR_EXPECTED_MESSAGE_FROM_OWNER
      else .ok ({ p with state := .closing, unlockTs := now + p.proxyDelayBeforeClose }, [])
  | .textWithdraw s =>
      if p.state = .closed then .error ERROR_CLOSED
      else if s ≠ p.ownerAddress then .error ERROR_EXPECTED_MESSAGE_FROM_OWNER
      else .ok ({ p with balance := 0 }, [⟨p.ownerAddress, p.balance, OP_PAYOUT⟩])
  | .ownerProxyClose s ex =>
      if p.state ≠ .normal then .error ERROR_CLOSED
      else if s ≠ p.ownerAddress then .error ERROR_EXPECTED_MESSAGE_FROM_OWNER
      else .ok ({ p with state := .closing, unlockTs := now + p.proxyDelayBeforeClose },
                [⟨ex, 0, OP_EXCESSES⟩])
  | .extProxyCloseRequestSigned _ ex a =>
      if p.state ≠ .normal then .error ERROR_CLOSED
      else match checkCloseAttestation p.proxyPublicKey p.myAddress a with
      | some e => .error e
      | none =>
          .ok ({ p with state := .closing, unlockTs := now + p.proxyDelayBeforeClose },
               [⟨ex, 0, OP_EXCESSES⟩])
  | .extProxyCloseCompleteRequestSigned _ ex a =>
      if p.state ≠ .closing then .error ERROR_CLOSED
      else match checkCloseAttestation p.proxyPublicKey p.myAddress a with
      | some e => .error e
      | none =>
          if now < p.unlockTs then .error ERROR_NOT_UNLOCKED_YET
          else .ok ({ p with state := .closed, balance := 0, stake := 0 },
                    [⟨p.ownerAddress, p.balance + p.stake, OP_PAYOUT⟩, ⟨ex, 0, OP_EXCESSES⟩])
  | .extProxyPayoutRequest s _ =>
      if p.state = .closed then .error ERROR_CLOSED
      else if s ≠ p.ownerAddress then .error ERROR_EXPECTED_MESSAGE_FROM_OWNER
      else .ok ({ p with balance := 0 }, [⟨p.ownerAddress, p.balance, OP_PAYOUT⟩])
  | .extProxyIncreaseStake s grams _ =>
      if p.state = .closed then .error ERROR_CLOSED
      else if s ≠ p.ownerAddress then .error ERROR_EXPECTED_MESSAGE_FROM_OWNER
      else .ok ({ p with stake := p.stake + grams }, [])
  | .workerProxyRequest sender workerOwner payload =>
      match payload with
      | none => .ok (p, [])
      | some (.payoutRequest workerPart proxyPart _) =>
          if sender ≠ calculateWorkerAddress p.myAddress p.proxyPublicKey workerOwner then
            .error ERROR_CONTRACT_ADDRESS_MISMATCH
          else if p.state ≠ .normal then .error ERROR_CLOSED
          else .ok ({ p with balance := p.balance + proxyPart },
                    [⟨workerOwner, workerPart, OP_PAYOUT⟩])
  | .clientProxyRequest sender clientOwner payload =>
      match payload with
      | none => .ok (p, [])
      | some pl =>
          if sender ≠ calculateClientAddress p.myAddress p.proxyPublicKey clientOwner then
            .error ERROR_CONTRACT_ADDRESS_MISMATCH
          else match pl with
          | .topUp coins _ =>
              if p.state = .normal then .ok ({ p with balance := p.balance + coins }, [])
              else .ok (p, [⟨clientOwner, coins, OP_PAYOUT⟩])
          | .register => .ok (p, [])
          | .refundGranted coins _ =>
              if p.state = .closed then .error ERROR_CLOSED
              else .ok (p, [⟨clientOwner, coins, OP_PAYOUT⟩])
          | .refundForce coins _ =>
              if p.state = .closed then .error ERROR_CLOSED
              else .ok ({ p with stake := p.stake - coins },
                        [⟨clientOwner, min coins p.stake, OP_PAYOUT⟩])

/-- C1: on any non-closed Worker or Client, a payout/charge attestation whose
counter does not strictly exceed the stored cumulative counter fails with the
StaleCounter exit code ERROR_OLD_MESSAGE, even though its signature verifies
against the stored broker key and it is bound to the account's own address;
a failing transaction rolls back, so the stored counter is unchanged. -/
theorem C1_stale_attestation_rejected
    (w : WorkerState) (c : ClientState) (now s t : Nat) (a b : Attestation)
    (hw : w.state ≠ .closed)
    (hwsig : a.sigKey = w.proxyPublicKey)
    (hwaddr : a.targetAddress = w.myAddress)
    (hwctr : a.newCounter ≤ w.tokens)
    (hc : c.state ≠ .closed)
    (hcsig : b.sigKey = c.proxyPublicKey)
    (hcaddr : b.targetAddress = c.myAddress)
    (hcctr : b.newCounter ≤ c.tokensUsed) :
    workerStep w (.payoutRequest s a) = .error ERROR_OLD_MESSAGE ∧
    clientStep now c (.extClientChargeSigned t b) = .error ERROR_OLD_MESSAGE := by
  constructor
  · simp [workerStep, checkAttestation, hw, hwsig, hwaddr, hwctr]
  · simp [clientStep, checkAttestation, hc, hcsig, hcaddr, hcctr]

/-- Witness for C1 at a concrete worker and client that both already store
counter 1000, resubmitting counter 1000. -/
theorem C1_stale_attestation_rejected_witness :
    workerStep ⟨100, 7, 50, 9, .normal, 1000⟩
      (.payoutRequest 7 ⟨124, 1000, 100, 9⟩) = .error ERROR_OLD_MESSAGE ∧
    clientStep 5 ⟨300, 7, 50, 9, .normal, 10, 1, 1000, 0, 0, 3600⟩
      (.extClientChargeSigned 7 ⟨124, 1000, 300, 9⟩) = .error ERROR_OLD_MESSAGE :=
  C1_stale_attestation_rejected _ _ 5 7 7 _ _
    (by decide) (by decide) (by decide) (by decide) (by decide) (by decide) (by decide) (by decide)

/-- C2: the counter-comparison policy is strict-greater for payout (Worker)
and charge (Client) attestations and greater-or-equal for the closing
attestations last-payout and grant-refund: on a valid, correctly-bound
attestation, payout/charge fail with ERROR_OLD_MESSAGE exactly when the new
counter does not strictly exceed the stored one, while last-payout and
grant-refund fail with ERROR_OLD_MESSAGE when the new counter is strictly
below the stored one and succeed - closing the account - when it is greater
or equal (in particular, equal). -/
theorem C2_counter_comparison_policy
    (w : WorkerState) (c : ClientState) (now s t : Nat) (a b : Attestation)
    (hw : w.state ≠ .closed)
    (hwsig : a.sigKey = w.proxyPublicKey)
    (hwaddr : a.targetAddress = w.myAddress)
    (hc : c.state ≠ .closed)
    (hcsig : b.sigKey = c.proxyPublicKey)
    (hcaddr : b.targetAddress = c.myAddress) :
    (a.newCounter ≤ w.tokens →
      workerStep w (.payoutRequest s a) = .error ERROR_OLD_MESSAGE) ∧
    (w.tokens < a.newCounter →
      workerStep w (.payoutRequest s a) = .ok { w with tokens := a.newCounter }) ∧
    (a.newCounter < w.tokens →
      workerStep w (.lastPayoutRequest s a) = .error ERROR_OLD_MESSAGE) ∧
    (w.tokens ≤ a.newCounter →
      workerStep w (.lastPayoutRequest s a) =
        .ok { w with tokens := a.newCounter, state := .closed }) ∧
    (b.newCounter ≤ c.tokensUsed →
      clientStep now c (.extClientChargeSigned t b) = .error ERROR_OLD_MESSAGE) ∧
    (c.tokensUsed < b.newCounter →
      clientStep now c (.extClientChargeSigned t b) =
        .ok { c with tokensUsed := b.newCounter }) ∧
    (b.newCounter < c.tokensUsed →
      clientStep now c (.extClientGrantRefundSigned t b) = .error ERROR_OLD_MESSAGE) ∧
    (c.tokensUsed ≤ b.newCounter →
      clientStep now c (.extClientGrantRefundSigned t b) =
        .ok { c with tokensUsed := b.newCounter, balance := 0, state := .closed }) := by
  refine ⟨fun h => ?_, fun h => ?_, fun h => ?_, fun h => ?_,
          fun h => ?_, fun h => ?_, fun h => ?_, fun h => ?_⟩
  · simp [workerStep, checkAttestation, hw, hwsig, hwaddr, h]
  · simp [workerStep, checkAttestation, hw, hwsig, hwaddr, Nat.not_le.mpr h]
  · simp [workerStep, checkAttestation, hw, hwsig, hwaddr, h]
  · simp [workerStep, checkAttestation, hw, hwsig, hwaddr, Nat.not_lt.mpr h]
  · simp [clientStep, checkAttestation, hc, hcsig, hcaddr, h]
  · simp [clientStep, checkAttestation, hc, hcsig, hcaddr, Nat.not_le.mpr h]
  · simp [clientStep, checkAttestation, hc, hcsig, hcaddr, h]
  · simp [clientStep, checkAttestation, hc, hcsig, hcaddr, Nat.not_lt.mpr h]

/-- Witness for C2 at a concrete worker and client storing counter 1000 and a
closing attestation carrying exactly counter 1000: it succeeds and closes. -/
theorem C2_counter_comparison_policy_witness :
    workerStep ⟨100, 7, 50, 9, .normal, 1000⟩
      (.lastPayoutRequest 7 ⟨124, 1000, 100, 9⟩) =
      .ok ⟨100, 7, 50, 9, .closed, 1000⟩ ∧
    clientStep 5 ⟨300, 7, 50, 9, .normal, 10, 1, 1000, 0, 0, 3600⟩
      (.extClientGrantRefundSigned 7 ⟨124, 1000, 300, 9⟩) =
      .ok ⟨300, 7, 50, 9, .closed, 0, 1, 1000, 0, 0, 3600⟩ :=
  have h := C2_counter_comparison_policy
    ⟨100, 7, 50, 9, .normal, 1000⟩ ⟨300, 7, 50, 9, .normal, 10, 1, 1000, 0, 0, 3600⟩
    5 7 7 ⟨124, 1000, 100, 9⟩ ⟨124, 1000, 300, 9⟩
    (by decide) (by decide) (by decide) (by decide) (by decide) (by decide)
  ⟨h.2.2.2.1 (by decide), h.2.2.2.2.2.2.2 (by decide)⟩

/-- C3: on any non-closed Worker or Client, a signed attestation whose target
address differs from the verifying account's own address fails with the
AddressMismatch exit code ERROR_EXPECTED_MY_ADDRESS on every signed
entry point, even though the signature verifies against the stored broker
key and the counter strictly advances the stored one; the failing
transaction rolls back, so no state changes. -/
theorem C3_address_mismatch_rejected
    (w : WorkerState) (c : ClientState) (now s t : Nat) (a b : Attestation)
    (hw : w.state ≠ .closed)
    (hwsig : a.sigKey = w.proxyPublicKey)
    (hwaddr : a.targetAddress ≠ w.myAddress)
    (hwctr : w.tokens < a.newCounter)
    (hc : c.state ≠ .closed)
    (hcsig : b.sigKey = c.proxyPublicKey)
    (hcaddr : b.targetAddress ≠ c.myAddress)
    (hcctr : c.tokensUsed < b.newCounter) :
    workerStep w (.payoutRequest s a) = .error ERROR_EXPECTED_MY_ADDRESS ∧
    workerStep w (.lastPayoutRequest s a) = .error ERROR_EXPECTED_MY_ADDRESS ∧
    clientStep now c (.extClientChargeSigned t b) = .error ERROR_EXPECTED_MY_ADDRESS ∧
    clientStep now c (.extClientGrantRefundSigned t b) = .error ERROR_EXPECTED_MY_ADDRESS := by
  refine ⟨?_, ?_, ?_, ?_⟩
  · simp [workerStep, checkAttestation, hw, hwsig, hwaddr]
  · simp [workerStep, checkAttestation, hw, hwsig, hwaddr]
  · simp [clientStep, checkAttestation, hc, hcsig, hcaddr]
  · simp [clientStep, checkAttestation, hc, hcsig, hcaddr]

/-- Witness for C3 at a concrete worker (address 100) and client (address
300) receiving validly signed, counter-advancing attestations bound to the
foreign address 999. -/
theorem C3_address_mismatch_rejected_witness :
    workerStep ⟨100, 7, 50, 9, .normal, 1000⟩
      (.payoutRequest 7 ⟨124, 2000, 999, 9⟩) = .error ERROR_EXPECTED_MY_ADDRESS ∧
    workerStep ⟨100, 7, 50, 9, .normal, 1000⟩
      (.lastPayoutRequest 7 ⟨124, 2000, 999, 9⟩) = .error ERROR_EXPECTED_MY_ADDRESS ∧
    clientStep 5 ⟨300, 7, 50, 9, .normal, 10, 1, 1000, 0, 0, 3600⟩
      (.extClientChargeSigned 7 ⟨124, 2000, 999, 9⟩) = .error ERROR_EXPECTED_MY_ADDRESS ∧
    clientStep 5 ⟨300, 7, 50, 9, .normal, 10, 1, 1000, 0, 0, 3600⟩
      (.extClientGrantRefundSigned 7 ⟨124, 2000, 999, 9⟩) = .error ERROR_EXPECTED_MY_ADDRESS :=
  C3_address_mismatch_rejected _ _ 5 7 7 _ _
    (by decide) (by decide) (by decide) (by decide) (by decide) (by decide) (by decide) (by decide)

/-- C4 counterexample: the claim quantifies over stake changes, but
owner_increase_stake only requires the new stake to strictly exceed the old
one, so from balance 10, stake 1 the owner can set stake 100 in the Open
state and the resulting account violates balance greater-or-equal stake. -/
theorem C4_counterexample :
    clientStep 0 ⟨300, 7, 50, 9, .normal, 10, 1, 0, 0, 0, 3600⟩
      (.ownerIncreaseStake 7 100 7) =
      .ok ⟨300, 7, 50, 9, .normal, 10, 100, 0, 0, 0, 3600⟩ ∧
    (⟨300, 7, 50, 9, .normal, 10, 100, 0, 0, 0, 3600⟩ : ClientState).balance <
      (⟨300, 7, 50, 9, .normal, 10, 100, 0, 0, 0, 3600⟩ : ClientState).stake := by
  exact ⟨by decide, by decide⟩

/-- C4 (amended): for a Client in the Open state with balance at least stake,
every successfully applied top-up, register, secret-hash change, charge, and
withdraw preserves balance greater-or-equal stake, and a stake change
preserves it whenever the new stake does not exceed the balance; moreover
owner_withdraw reduces the balance to exactly the stake when balance
exceeds stake and fails with ERROR_LOW_SMC_BALANCE when balance is at most
stake. (The unamended claim fails only on a stake change above the balance,
see the counterexample.) -/
theorem C4_balance_covers_stake
    (c : ClientState) (now : Nat) (hst : c.state = .normal) (hinv : c.stake ≤ c.balance) :
    (∀ s v coins e c', clientStep now c (.extTopUp s v coins e) = .ok c' →
      c'.stake ≤ c'.balance) ∧
    (∀ s v coins hh e c',
      clientStep now c (.ownerChangeSecretHashAndTopUp s v coins hh e) = .ok c' →
      c'.stake ≤ c'.balance) ∧
    (∀ s n e c', clientStep now c (.ownerRegister s n e) = .ok c' →
      c'.stake ≤ c'.balance) ∧
    (∀ s hh e c', clientStep now c (.ownerChangeSecretHash s hh e) = .ok c' →
      c'.stake ≤ c'.balance) ∧
    (∀ s ns e c', ns ≤ c.balance →
      clientStep now c (.ownerIncreaseStake s ns e) = .ok c' →
      c'.stake ≤ c'.balance) ∧
    (∀ s e c', clientStep now c (.ownerWithdraw s e) = .ok c' →
      c'.balance = c.stake ∧ c'.stake ≤ c'.balance) ∧
    (∀ s a c', clientStep now c (.extClientChargeSigned s a) = .ok c' →
      c'.stake ≤ c'.balance) ∧
    (∀ e, c.stake < c.balance →
      clientStep now c (.ownerWithdraw c.ownerAddress e) = .ok { c with balance := c.stake }) ∧
    (∀ e, c.balance ≤ c.stake →
      clientStep now c (.ownerWithdraw c.ownerAddress e) = .error ERROR_LOW_SMC_BALANCE) := by
  have hne : c.state ≠ .closed := by rw [hst]; intro hx; cases hx
  refine ⟨?_, ?_, ?_, ?_, ?_, ?_, ?_, ?_, ?_⟩
  · intro s v coins e c' h
    simp only [clientStep, if_neg hne] at h
    split at h
    · exact Except.noConfusion h
    · obtain rfl := Except.ok.inj h
      exact le_trans hinv (Nat.le_add_right _ _)
  · intro s v coins hh e c' h
    simp only [clientStep, if_neg hne] at h
    split at h
    · exact Except.noConfusion h
    split at h
    · exact Except.noConfusion h
    · obtain rfl := Except.ok.inj h
      exact le_trans hinv (Nat.le_add_right _ _)
  · intro s n e c' h
    simp only [clientStep, if_neg hne] at h
    split at h
    · exact Except.noConfusion h
    · obtain rfl := Except.ok.inj h
      exact hinv
  · intro s hh e c' h
    simp only [clientStep, if_neg hne] at h
    split at h
    · exact Except.noConfusion h
    · obtain rfl := Except.ok.inj h
      exact hinv
  · intro s ns e c' hns hok
    simp only [clientStep, if_neg hne] at hok
    split at hok
    · exact Except.noConfusion hok
    split at hok
    · exact Except.noConfusion hok
    · obtain rfl := Except.ok.inj hok
      exact hns
  · intro s e c' h
    simp only [clientStep, if_neg hne] at h
    split at h
    · exact Except.noConfusion h
    split at h
    · exact Except.noConfusion h
    · obtain rfl := Except.ok.inj h
      exact ⟨rfl, Nat.le_refl _⟩
  · intro s a c' h
    simp only [clientStep, if_neg hne] at h
    split at h
    · exact Except.noConfusion h
    · obtain rfl := Except.ok.inj h
      exact hinv
  · intro e hlt
    simp [clientStep, hne, Nat.not_le.mpr hlt]
  · intro e hle
    simp [clientStep, hne, hle]

/-- Witness for C4 (amended) at a concrete Open client with balance 10 and
stake 1: withdraw succeeds and leaves balance exactly 1. -/
theorem C4_balance_covers_stake_witness :
    clientStep 0 ⟨300, 7, 50, 9, .normal, 10, 1, 0, 0, 0, 3600⟩ (.ownerWithdraw 7 7) =
      .ok ⟨300, 7, 50, 9, .normal, 1, 1, 0, 0, 0, 3600⟩ :=
  (C4_balance_covers_stake ⟨300, 7, 50, 9, .normal, 10, 1, 0, 0, 0, 3600⟩ 0
    (by decide) (by decide)).2.2.2.2.2.2.2.1 7 (by decide)

/-- C7: a Client deployed Open with balance 10 and stake 1 processes the
two-phase owner_request_refund exactly as claimed: the first call moves it
to Closing with balance reduced to the stake (1) and a positive unlock
time; a second call strictly before the unlock time fails with
ERROR_NOT_UNLOCKED_YET (rolling back, hence changing nothing); a second
call at or after the unlock time closes the account with balance 0. -/
theorem C7_request_refund_two_phase
    (myA own pa pk sh d now now2 now3 e1 e2 e3 : Nat) (hd : 0 < d) :
    clientStep now ⟨myA, own, pa, pk, .normal, 10, 1, 0, 0, sh, d⟩
      (.ownerRequestRefund own e1) =
      .ok ⟨myA, own, pa, pk, .closing, 1, 1, 0, now + d, sh, d⟩ ∧
    0 < now + d ∧
    (now2 < now + d →
      clientStep now2 ⟨myA, own, pa, pk, .closing, 1, 1, 0, now + d, sh, d⟩
        (.ownerRequestRefund own e2) = .error ERROR_NOT_UNLOCKED_YET) ∧
    (now + d ≤ now3 →
      clientStep now3 ⟨myA, own, pa, pk, .closing, 1, 1, 0, now + d, sh, d⟩
        (.ownerRequestRefund own e3) =
        .ok ⟨myA, own, pa, pk, .closed, 0, 1, 0, now + d, sh, d⟩) := by
  refine ⟨?_, by omega, fun h => ?_, fun h => ?_⟩
  · simp [clientStep]
  · simp [clientStep, h]
  · simp [clientStep, Nat.not_lt.mpr h]

/-- Witness for C7 with delay 3600, first call at time 100, a premature
second call at time 200 and a successful second call at time 3700. -/
theorem C7_request_refund_two_phase_witness :
    clientStep 100 ⟨300, 7, 50, 9, .normal, 10, 1, 0, 0, 0, 3600⟩
      (.ownerRequestRefund 7 7) =
      .ok ⟨300, 7, 50, 9, .closing, 1, 1, 0, 3700, 0, 3600⟩ ∧
    clientStep 200 ⟨300, 7, 50, 9, .closing, 1, 1, 0, 3700, 0, 3600⟩
      (.ownerRequestRefund 7 7) = .error ERROR_NOT_UNLOCKED_YET ∧
    clientStep 3700 ⟨300, 7, 50, 9, .closing, 1, 1, 0, 3700, 0, 3600⟩
      (.ownerRequestRefund 7 7) =
      .ok ⟨300, 7, 50, 9, .closed, 0, 1, 0, 3700, 0, 3600⟩ :=
  have h := C7_request_refund_two_phase 300 7 50 9 0 3600 100 200 3700 7 7 7 (by decide)
  ⟨h.1, h.2.2.1 (by decide), h.2.2.2 (by decide)⟩

/-- C8: on an Open client, owner_increase_stake succeeds exactly for a new
stake strictly above the stored stake (storing the new stake), and fails
(with exit code 1003, leaving the stake unchanged by rollback) for a new
stake below the stored one. -/
theorem C8_increase_stake_strictly_monotone
    (c : ClientState) (now ns e : Nat) (hst : c.state = .normal) :
    (c.stake < ns →
      clientStep now c (.ownerIncreaseStake c.ownerAddress ns e) =
        .ok { c with stake := ns }) ∧
    (ns < c.stake →
      clientStep now c (.ownerIncreaseStake c.ownerAddress ns e) =
        .error ERROR_LOW_MSG_VALUE) := by
  have hne : c.state ≠ .closed := by rw [hst]; intro hx; cases hx
  refine ⟨fun h => ?_, fun h => ?_⟩
  · simp [clientStep, hne, Nat.not_le.mpr h]
  · simp [clientStep, hne, Nat.le_of_lt h]

/-- Witness for C8 at a concrete Open client with stake 1: raising the stake
to 2 succeeds and storing 0 is rejected with exit code 1003. -/
theorem C8_increase_stake_strictly_monotone_witness :
    clientStep 0 ⟨300, 7, 50, 9, .normal, 10, 1, 0, 0, 0, 3600⟩
      (.ownerIncreaseStake 7 2 7) =
      .ok ⟨300, 7, 50, 9, .normal, 10, 2, 0, 0, 0, 3600⟩ ∧
    clientStep 0 ⟨300, 7, 50, 9, .normal, 10, 1, 0, 0, 0, 3600⟩
      (.ownerIncreaseStake 7 0 7) = .error ERROR_LOW_MSG_VALUE :=
  have h := C8_increase_stake_strictly_monotone
    ⟨300, 7, 50, 9, .normal, 10, 1, 0, 0, 0, 3600⟩ 0 2 7 (by decide)
  have h0 := C8_increase_stake_strictly_monotone
    ⟨300, 7, 50, 9, .normal, 10, 1, 0, 0, 0, 3600⟩ 0 0 7 (by decide)
  ⟨h.1 (by decide), h0.2 (by decide)⟩

/-- C6: a ClientProxyRefundForce settlement on an Open Broker from the
correctly derived Client address always succeeds; when the requested amount
is at least the stake, the payout is capped at the available stake and the
stake drops to exactly 0, and when the requested amount is at most the
stake, the stake decreases by exactly the requested amount. -/
theorem C6_refund_force_capped_at_stake
    (p : ProxyState) (now co coins e : Nat) (hst : p.state = .normal) :
    (p.stake ≤ coins →
      proxyStep now p (.clientProxyRequest
          (calculateClientAddress p.myAddress p.proxyPublicKey co) co
          (some (.refundForce coins e))) =
        .ok ({ p with stake := 0 }, [⟨co, p.stake, OP_PAYOUT⟩])) ∧
    (coins ≤ p.stake →
      proxyStep now p (.clientProxyRequest
          (calculateClientAddress p.myAddress p.proxyPublicKey co) co
          (some (.refundForce coins e))) =
        .ok ({ p with stake := p.stake - coins }, [⟨co, coins, OP_PAYOUT⟩])) := by
  have hne : p.state ≠ .closed := by rw [hst]; intro hx; cases hx
  refine ⟨fun h => ?_, fun h => ?_⟩
  · simp [proxyStep, hne, Nat.sub_eq_zero_of_le h, Nat.min_eq_right h]
  · simp [proxyStep, hne, Nat.min_eq_left h]

/-- Witness for C6 at a concrete Open broker with stake 10: a forced refund
of 20 pays 10 and zeroes the stake; a forced refund of 4 pays 4. -/
theorem C6_refund_force_capped_at_stake_witness :
    proxyStep 0 ⟨200, 7, 9, 3, .normal, 5, 10, 0, 7200⟩
      (.clientProxyRequest (calculateClientAddress 200 9 7) 7
        (some (.refundForce 20 7))) =
      .ok (⟨200, 7, 9, 3, .normal, 5, 0, 0, 7200⟩, [⟨7, 10, OP_PAYOUT⟩]) ∧
    proxyStep 0 ⟨200, 7, 9, 3, .normal, 5, 10, 0, 7200⟩
      (.clientProxyRequest (calculateClientAddress 200 9 7) 7
        (some (.refundForce 4 7))) =
      .ok (⟨200, 7, 9, 3, .normal, 5, 6, 0, 7200⟩, [⟨7, 4, OP_PAYOUT⟩]) :=
  have h := C6_refund_force_capped_at_stake
    ⟨200, 7, 9, 3, .normal, 5, 10, 0, 7200⟩ 0 7 20 7 (by decide)
  have h4 := C6_refund_force_capped_at_stake
    ⟨200, 7, 9, 3, .normal, 5, 10, 0, 7200⟩ 0 7 4 7 (by decide)
  ⟨h.1 (by decide), h4.2 (by decide)⟩

/-- C9: a ClientProxyTopUp settlement from the correctly derived Client
address adds the coins to the Broker balance exactly when the Broker is
Open; in any other lifecycle state the transaction still succeeds, leaves
the Broker state untouched and sends the coins back to the client owner as
a payout message. -/
theorem C9_topup_adds_balance_only_while_open
    (p : ProxyState) (now co coins e : Nat) :
    (p.state = .normal →
      proxyStep now p (.clientProxyRequest
          (calculateClientAddress p.myAddress p.proxyPublicKey co) co
          (some (.topUp coins e))) =
        .ok ({ p with balance := p.balance + coins }, [])) ∧
    (p.state ≠ .normal →
      proxyStep now p (.clientProxyRequest
          (calculateClientAddress p.myAddress p.proxyPublicKey co) co
          (some (.topUp coins e))) =
        .ok (p, [⟨co, coins, OP_PAYOUT⟩])) := by
  refine ⟨fun h => ?_, fun h => ?_⟩
  · simp [proxyStep, h]
  · simp [proxyStep, h]

/-- Witness for C9 at a concrete broker: Open adds 2 to the balance; Closed
succeeds and bounces the 2 coins back to the client owner. -/
theorem C9_topup_adds_balance_only_while_open_witness :
    proxyStep 0 ⟨200, 7, 9, 3, .normal, 5, 10, 0, 7200⟩
      (.clientProxyRequest (calculateClientAddress 200 9 7) 7 (some (.topUp 2 7))) =
      .ok (⟨200, 7, 9, 3, .normal, 7, 10, 0, 7200⟩, []) ∧
    proxyStep 0 ⟨200, 7, 9, 3, .closed, 5, 10, 0, 7200⟩
      (.clientProxyRequest (calculateClientAddress 200 9 7) 7 (some (.topUp 2 7))) =
      .ok (⟨200, 7, 9, 3, .closed, 5, 10, 0, 7200⟩, [⟨7, 2, OP_PAYOUT⟩]) :=
  have h := C9_topup_adds_balance_only_while_open
    ⟨200, 7, 9, 3, .normal, 5, 10, 0, 7200⟩ 0 7 2 7
  have hcl := C9_topup_adds_balance_only_while_open
    ⟨200, 7, 9, 3, .closed, 5, 10, 0, 7200⟩ 0 7 2 7
  ⟨h.1 (by decide), hcl.2 (by decide)⟩

/-- C10: the Broker settlement entry points perform the deterministic
sender-address derivation check only when a payload is present: an empty
(none) payload returns success as a no-op with no check at all, from any
sender whatsoever, while any non-empty payload from a sender that is not
the derived counterpart address fails with
ERROR_CONTRACT_ADDRESS_MISMATCH. -/
theorem C10_empty_payload_skips_address_check
    (p : ProxyState) (now sender wo co : Nat) :
    proxyStep now p (.workerProxyRequest sender wo none) = .ok (p, []) ∧
    proxyStep now p (.clientProxyRequest sender co none) = .ok (p, []) ∧
    (∀ wp : WorkerPayload,
      sender ≠ calculateWorkerAddress p.myAddress p.proxyPublicKey wo →
      proxyStep now p (.workerProxyRequest sender wo (some wp)) =
        .error ERROR_CONTRACT_ADDRESS_MISMATCH) ∧
    (∀ cp : ClientPayload,
      sender ≠ calculateClientAddress p.myAddress p.proxyPublicKey co →
      proxyStep now p (.clientProxyRequest sender co (some cp)) =
        .error ERROR_CONTRACT_ADDRESS_MISMATCH) := by
  refine ⟨by simp [proxyStep], by simp [proxyStep], fun wp h => ?_, fun cp h => ?_⟩
  · cases wp with
    | payoutRequest a b c => simp [proxyStep, h]
  · cases cp <;> simp [proxyStep, h]

/-- Witness for C10: the arbitrary, non-derived sender 3 is accepted with an
empty payload and rejected with AddressMismatch once a payload is present. -/
theorem C10_empty_payload_skips_address_check_witness :
    proxyStep 0 ⟨200, 7, 9, 3, .normal, 5, 10, 0, 7200⟩
      (.workerProxyRequest 3 7 none) =
      .ok (⟨200, 7, 9, 3, .normal, 5, 10, 0, 7200⟩, []) ∧
    proxyStep 0 ⟨200, 7, 9, 3, .normal, 5, 10, 0, 7200⟩
      (.workerProxyRequest 3 7 (some (.payoutRequest 1 1 7))) =
        .error ERROR_CONTRACT_ADDRESS_MISMATCH :=
  have h := C10_empty_payload_skips_address_check
    ⟨200, 7, 9, 3, .normal, 5, 10, 0, 7200⟩ 0 3 7 7
  ⟨h.1, h.2.2.1 (.payoutRequest 1 1 7) (by decide)⟩

/-- Every lifecycle rank is at most the rank of CLOSED. -/
theorem stateRank_le_two (s : AccState) : stateRank s ≤ 2 := by
  cases s <;> simp [stateRank]

/-- A state other than CLOSED has rank at most the rank of CLOSING. -/
theorem stateRank_le_one_of_ne_closed (s : AccState) (h : s ≠ .closed) : stateRank s ≤ 1 := by
  cases s <;> simp_all [stateRank]

/-- A successful Worker transition never decreases the lifecycle rank. -/
theorem workerStep_forward (w : WorkerState) (m : WorkerMsg) (w' : WorkerState)
    (h : workerStep w m = .ok w') : stateRank w.state ≤ stateRank w'.state := by
  by_cases hcl : w.state = .closed
  · simp [workerStep, hcl] at h
  · cases m with
    | register s e =>
        simp only [workerStep, if_neg hcl] at h
        split at h
        · exact Except.noConfusion h
        · obtain rfl := Except.ok.inj h
          exact Nat.le_refl _
    | payoutRequest s a =>
        simp only [workerStep, if_neg hcl] at h
        split at h
        · exact Except.noConfusion h
        · obtain rfl := Except.ok.inj h
          exact Nat.le_refl _
    | lastPayoutRequest s a =>
        simp only [workerStep, if_neg hcl] at h
        split at h
        · exact Except.noConfusion h
        · obtain rfl := Except.ok.inj h
          exact stateRank_le_two w.state

/-- A successful Client transition never decreases the lifecycle rank. -/
theorem clientStep_forward (now : Nat) (c : ClientState) (m : ClientMsg) (c' : ClientState)
    (h : clientStep now c m = .ok c') : stateRank c.state ≤ stateRank c'.state := by
  by_cases hcl : c.state = .closed
  · simp [clientStep, hcl] at h
  · cases m with
    | extTopUp s v coins e =>
        simp only [clientStep, if_neg hcl] at h
        split at h
        · exact Except.noConfusion h
        · obtain rfl := Except.ok.inj h
          exact Nat.le_refl _
    | ownerChangeSecretHashAndTopUp s v coins hh e =>
        simp only [clientStep, if_neg hcl] at h
        split at h
        · exact Except.noConfusion h
        split at h
        · exact Except.noConfusion h
        · obtain rfl := Except.ok.inj h
          exact Nat.le_refl _
    | ownerRegister s n e =>
        simp only [clientStep, if_neg hcl] at h
        split at h
        · exact Except.noConfusion h
        · obtain rfl := Except.ok.inj h
          exact Nat.le_refl _
    | ownerChangeSecretHash s hh e =>
        simp only [clientStep, if_neg hcl] at h
        split at h
        · exact Except.noConfusion h
        · obtain rfl := Except.ok.inj h
          exact Nat.le_refl _
    | ownerIncreaseStake s ns e =>
        simp only [clientStep, if_neg hcl] at h
        split at h
        · exact Except.noConfusion h
        split at h
        · exact Except.noConfusion h
        · obtain rfl := Except.ok.inj h
          exact Nat.le_refl _
    | ownerWithdraw s e =>
        simp only [clientStep, if_neg hcl] at h
        split at h
        · exact Except.noConfusion h
        split at h
        · exact Except.noConfusion h
        · obtain rfl := Except.ok.inj h
          exact Nat.le_refl _
    | ownerRequestRefund s e =>
        simp only [clientStep, if_neg hcl] at h
        split at h
        · exact Except.noConfusion h
        · split at h
          · obtain rfl := Except.ok.inj h
            exact stateRank_le_one_of_ne_closed _ hcl
          · split at h
            · exact Except.noConfusion h
            · obtain rfl := Except.ok.inj h
              exact stateRank_le_two c.state
    | extClientChargeSigned s a =>
        simp only [clientStep, if_neg hcl] at h
        split at h
        · exact Except.noConfusion h
        · obtain rfl := Except.ok.inj h
          exact Nat.le_refl _
    | extClientGrantRefundSigned s a =>
        simp only [clientStep, if_neg hcl] at h
        split at h
        · exact Except.noConfusion h
        · obtain rfl := Except.ok.inj h
          exact stateRank_le_two c.state

/-- A successful Broker transition never decreases the lifecycle rank. -/
theorem proxyStep_forward (now : Nat) (p : ProxyState) (m : ProxyMsg)
    (pr : ProxyState × List OutMessage)
    (h : proxyStep now p m = .ok pr) : stateRank p.state ≤ stateRank pr.1.state := by
  cases m with
  | textClose s =>
      simp only [proxyStep] at h
      split at h
      · exact Except.noConfusion h
      · split at h
        · exact Except.noConfusion h
        · obtain rfl := Except.ok.inj h
          rename_i hn _
          rw [not_not] at hn
          rw [hn]
          exact Nat.zero_le _
  | textWithdraw s =>
      simp only [proxyStep] at h
      split at h
      · exact Except.noConfusion h
      split at h
      · exact Except.noConfusion h
      · obtain rfl := Except.ok.inj h
        exact Nat.le_refl _
  | ownerProxyClose s ex =>
      simp only [proxyStep] at h
      split at h
      · exact Except.noConfusion h
      · split at h
        · exact Except.noConfusion h
        · obtain rfl := Except.ok.inj h
          rename_i hn _
          rw [not_not] at hn
          rw [hn]
          exact Nat.zero_le _
  | extProxyCloseRequestSigned s ex a =>
      simp only [proxyStep] at h
      split at h
      · exact Except.noConfusion h
      · split at h
        · exact Except.noConfusion h
        · obtain rfl := Except.ok.inj h
          rename_i hn _ _
          rw [not_not] at hn
          rw [hn]
          exact Nat.zero_le _
  | extProxyCloseCompleteRequestSigned s ex a =>
      simp only [proxyStep] at h
      split at h
      · exact Except.noConfusion h
      · split at h
        · exact Except.noConfusion h
        · split at h
          · exact Except.noConfusion h
          · obtain rfl := Except.ok.inj h
            exact stateRank_le_two p.state
  | extProxyPayoutRequest s ex =>
      simp only [proxyStep] at h
      split at h
      · exact Except.noConfusion h
      split at h
      · exact Except.noConfusion h
      · obtain rfl := Except.ok.inj h
        exact Nat.le_refl _
  | extProxyIncreaseStake s grams ex =>
      simp only [proxyStep] at h
      split at h
      · exact Except.noConfusion h
      split at h
      · exact Except.noConfusion h
      · obtain rfl := Except.ok.inj h
        exact Nat.le_refl _
  | workerProxyRequest s wo payload =>
      cases payload with
      | none =>
          simp only [proxyStep] at h
          obtain rfl := Except.ok.inj h
          exact Nat.le_refl _
      | some wp =>
          cases wp with
          | payoutRequest a b c =>
              simp only [proxyStep] at h
              split at h
              · exact Except.noConfusion h
              split at h
              · exact Except.noConfusion h
              · obtain rfl := Except.ok.inj h
                exact Nat.le_refl _
  | clientProxyRequest s co payload =>
      cases payload with
      | none =>
          simp only [proxyStep] at h
          obtain rfl := Except.ok.inj h
          exact Nat.le_refl _
      | some pl =>
          cases pl with
          | topUp coins e =>
              simp only [proxyStep] at h
              split at h
              · exact Except.noConfusion h
              · split at h
                · obtain rfl := Except.ok.inj h
                  exact Nat.le_refl _
                · obtain rfl := Except.ok.inj h
                  exact Nat.le_refl _
          | register =>
              simp only [proxyStep] at h
              split at h
              · exact Except.noConfusion h
              · obtain rfl := Except.ok.inj h
                exact Nat.le_refl _
          | refundGranted coins e =>
              simp only [proxyStep] at h
              split at h
              · exact Except.noConfusion h
              split at h
              · exact Except.noConfusion h
              · obtain rfl := Except.ok.inj h
                exact Nat.le_refl _
          | refundForce coins e =>
              simp only [proxyStep] at h
              split at h
              · exact Except.noConfusion h
              split at h
              · exact Except.noConfusion h
              · obtain rfl := Except.ok.inj h
                exact Nat.le_refl _

/-- A CLOSED Worker rejects every message with ERROR_CLOSED. -/
theorem workerStep_closed (w : WorkerState) (m : WorkerMsg) (h : w.state = .closed) :
    workerStep w m = .error ERROR_CLOSED := by
  simp [workerStep, h]

/-- A CLOSED Client rejects every message with ERROR_CLOSED. -/
theorem clientStep_closed (now : Nat) (c : ClientState) (m : ClientMsg)
    (h : c.state = .closed) : clientStep now c m = .error ERROR_CLOSED := by
  simp [clientStep, h]

/-- On a CLOSED Broker every message either fails (and the transaction rolls
back) or succeeds returning the stored state entirely unchanged;
consequently no message moves a CLOSED Broker to any other state. -/
theorem proxyStep_closed_preserves (now : Nat) (p : ProxyState) (m : ProxyMsg)
    (h : p.state = .closed) :
    (∃ e, proxyStep now p m = .error e) ∨ (∃ out, proxyStep now p m = .ok (p, out)) := by
  cases m with
  | textClose s => exact Or.inl ⟨ERROR_CLOSED, by simp [proxyStep, h]⟩
  | textWithdraw s => exact Or.inl ⟨ERROR_CLOSED, by simp [proxyStep, h]⟩
  | ownerProxyClose s ex => exact Or.inl ⟨ERROR_CLOSED, by simp [proxyStep, h]⟩
  | extProxyCloseRequestSigned s ex a => exact Or.inl ⟨ERROR_CLOSED, by simp [proxyStep, h]⟩
  | extProxyCloseCompleteRequestSigned s ex a =>
      exact Or.inl ⟨ERROR_CLOSED, by simp [proxyStep, h]⟩
  | extProxyPayoutRequest s ex => exact Or.inl ⟨ERROR_CLOSED, by simp [proxyStep, h]⟩
  | extProxyIncreaseStake s grams ex => exact Or.inl ⟨ERROR_CLOSED, by simp [proxyStep, h]⟩
  | workerProxyRequest s wo payload =>
      cases payload with
      | none => exact Or.inr ⟨[], by simp [proxyStep]⟩
      | some wp =>
          cases wp with
          | payoutRequest a b c =>
              by_cases hs : s = calculateWorkerAddress p.myAddress p.proxyPublicKey wo
              · exact Or.inl ⟨ERROR_CLOSED, by simp [proxyStep, h, hs]⟩
              · exact Or.inl ⟨ERROR_CONTRACT_ADDRESS_MISMATCH, by simp [proxyStep, hs]⟩
  | clientProxyRequest s co payload =>
      cases payload with
      | none => exact Or.inr ⟨[], by simp [proxyStep]⟩
      | some pl =>
          by_cases hs : s = calculateClientAddress p.myAddress p.proxyPublicKey co
          · cases pl with
            | topUp coins e =>
                exact Or.inr ⟨[⟨co, coins, OP_PAYOUT⟩], by simp [proxyStep, h, hs]⟩
            | register => exact Or.inr ⟨[], by simp [proxyStep, hs]⟩
            | refundGranted coins e => exact Or.inl ⟨ERROR_CLOSED, by simp [proxyStep, h, hs]⟩
            | refundForce coins e => exact Or.inl ⟨ERROR_CLOSED, by simp [proxyStep, h, hs]⟩
          · exact Or.inl ⟨ERROR_CONTRACT_ADDRESS_MISMATCH, by cases pl <;> simp [proxyStep, hs]⟩

/-- On a CLOSED Broker, every text, owner, signed-close and correctly-derived
mutating settlement message fails with ERROR_CLOSED, while a correctly
derived top-up settlement succeeds without any state change, bouncing the
coins back to the client owner. -/
theorem proxyStep_closed_rejects (now : Nat) (p : ProxyState) (h : p.state = .closed)
    (s wo coins ex : Nat) (a : CloseAttestation) (wp : WorkerPayload) :
    proxyStep now p (.textClose s) = .error ERROR_CLOSED ∧
    proxyStep now p (.textWithdraw s) = .error ERROR_CLOSED ∧
    proxyStep now p (.ownerProxyClose s ex) = .error ERROR_CLOSED ∧
    proxyStep now p (.extProxyCloseRequestSigned s ex a) = .error ERROR_CLOSED ∧
    proxyStep now p (.extProxyCloseCompleteRequestSigned s ex a) = .error ERROR_CLOSED ∧
    proxyStep now p (.extProxyPayoutRequest s ex) = .error ERROR_CLOSED ∧
    proxyStep now p (.extProxyIncreaseStake s coins ex) = .error ERROR_CLOSED ∧
    proxyStep now p (.workerProxyRequest
      (calculateWorkerAddress p.myAddress p.proxyPublicKey wo) wo (some wp)) =
      .error ERROR_CLOSED ∧
    proxyStep now p (.clientProxyRequest
      (calculateClientAddress p.myAddress p.proxyPublicKey wo) wo
      (some (.refundGranted coins ex))) = .error ERROR_CLOSED ∧
    proxyStep now p (.clientProxyRequest
      (calculateClientAddress p.myAddress p.proxyPublicKey wo) wo
      (some (.refundForce coins ex))) = .error ERROR_CLOSED ∧
    proxyStep now p (.clientProxyRequest
      (calculateClientAddress p.myAddress p.proxyPublicKey wo) wo
      (some (.topUp coins ex))) = .ok (p, [⟨wo, coins, OP_PAYOUT⟩]) := by
  refine ⟨by simp [proxyStep, h], by simp [proxyStep, h], by simp [proxyStep, h],
          by simp [proxyStep, h], by simp [proxyStep, h], by simp [proxyStep, h],
          by simp [proxyStep, h], ?_, by simp [proxyStep, h], by simp [proxyStep, h],
          by simp [proxyStep, h]⟩
  cases wp with
  | payoutRequest a b c => simp [proxyStep, h]

/-- C5 (amended): lifecycle states only advance along the order
Open, Closing, Closed for all three account kinds; a CLOSED Worker or
Client rejects every message with the ERROR_CLOSED exit code; a CLOSED
Broker never changes state either - every message to it fails or returns
the state unchanged, and every state-mutating operation fails with
ERROR_CLOSED except an inbound top-up settlement, which succeeds as the
claimed bounce (funds returned to the client owner) without state change.
(The unamended claim, that every state-mutating operation on a Closed
account fails with the Closed error, fails exactly on that top-up bounce;
see the counterexample.) -/
theorem C5_lifecycle_forward_only :
    (∀ (w : WorkerState) (m : WorkerMsg) (w' : WorkerState),
      workerStep w m = .ok w' → stateRank w.state ≤ stateRank w'.state) ∧
    (∀ (now : Nat) (c : ClientState) (m : ClientMsg) (c' : ClientState),
      clientStep now c m = .ok c' → stateRank c.state ≤ stateRank c'.state) ∧
    (∀ (now : Nat) (p : ProxyState) (m : ProxyMsg) (pr : ProxyState × List OutMessage),
      proxyStep now p m = .ok pr → stateRank p.state ≤ stateRank pr.1.state) ∧
    (∀ (w : WorkerState) (m : WorkerMsg), w.state = .closed →
      workerStep w m = .error ERROR_CLOSED) ∧
    (∀ (now : Nat) (c : ClientState) (m : ClientMsg), c.state = .closed →
      clientStep now c m = .error ERROR_CLOSED) ∧
    (∀ (now : Nat) (p : ProxyState) (m : ProxyMsg), p.state = .closed →
      (∃ e, proxyStep now p m = .error e) ∨ (∃ out, proxyStep now p m = .ok (p, out))) ∧
    (∀ (now : Nat) (p : ProxyState), p.state = .closed →
      ∀ (s wo coins ex : Nat) (a : CloseAttestation) (wp : WorkerPayload),
      proxyStep now p (.textClose s) = .error ERROR_CLOSED ∧
      proxyStep now p (.textWithdraw s) = .error ERROR_CLOSED ∧
      proxyStep now p (.ownerProxyClose s ex) = .error ERROR_CLOSED ∧
      proxyStep now p (.extProxyCloseRequestSigned s ex a) = .error ERROR_CLOSED ∧
      proxyStep now p (.extProxyCloseCompleteRequestSigned s ex a) = .error ERROR_CLOSED ∧
      proxyStep now p (.extProxyPayoutRequest s ex) = .error ERROR_CLOSED ∧
      proxyStep now p (.extProxyIncreaseStake s coins ex) = .error ERROR_CLOSED ∧
      proxyStep now p (.workerProxyRequest
        (calculateWorkerAddress p.myAddress p.proxyPublicKey wo) wo (some wp)) =
        .error ERROR_CLOSED ∧
      proxyStep now p (.clientProxyRequest
        (calculateClientAddress p.myAddress p.proxyPublicKey wo) wo
        (some (.refundGranted coins ex))) = .error ERROR_CLOSED ∧
      proxyStep now p (.clientProxyRequest
        (calculateClientAddress p.myAddress p.proxyPublicKey wo) wo
        (some (.refundForce coins ex))) = .error ERROR_CLOSED ∧
      proxyStep now p (.clientProxyRequest
        (calculateClientAddress p.myAddress p.proxyPublicKey wo) wo
        (some (.topUp coins ex))) = .ok (p, [⟨wo, coins, OP_PAYOUT⟩])) :=
  ⟨workerStep_forward, clientStep_forward, proxyStep_forward,
   fun w m h => workerStep_closed w m h,
   fun now c m h => clientStep_closed now c m h,
   fun now p m h => proxyStep_closed_preserves now p m h,
   fun now p h s wo coins ex a wp => proxyStep_closed_rejects now p h s wo coins ex a wp⟩

/-- Witness for C5: a concrete last-payout closing a worker advances the
rank, and a register message to the resulting closed worker fails with
ERROR_CLOSED. -/
theorem C5_lifecycle_forward_only_witness :
    stateRank (WorkerState.mk 100 7 50 9 .normal 1000).state ≤
      stateRank (WorkerState.mk 100 7 50 9 .closed 2000).state ∧
    workerStep ⟨100, 7, 50, 9, .closed, 2000⟩ (.register 7 7) = .error ERROR_CLOSED :=
  ⟨C5_lifecycle_forward_only.1 ⟨100, 7, 50, 9, .normal, 1000⟩
      (.lastPayoutRequest 7 ⟨124, 2000, 100, 9⟩) ⟨100, 7, 50, 9, .closed, 2000⟩ (by decide),
   C5_lifecycle_forward_only.2.2.2.1 ⟨100, 7, 50, 9, .closed, 2000⟩ (.register 7 7) (by decide)⟩

/-- C5 counterexample: a top-up settlement delivered from the correctly
derived Client address to a CLOSED Broker does not fail with the Closed
error - the transaction succeeds and the funds are bounced back - so not
every state-mutating operation sent to a Closed account fails with the
Closed error. -/
theorem C5_counterexample :
    proxyStep 0 ⟨200, 7, 9, 3, .closed, 5, 10, 0, 7200⟩
      (.clientProxyRequest (calculateClientAddress 200 9 7) 7 (some (.topUp 2 7))) =
      .ok (⟨200, 7, 9, 3, .closed, 5, 10, 0, 7200⟩, [⟨7, 2, OP_PAYOUT⟩]) ∧
    proxyStep 0 ⟨200, 7, 9, 3, .closed, 5, 10, 0, 7200⟩
      (.clientProxyRequest (calculateClientAddress 200 9 7) 7 (some (.topUp 2 7))) ≠
      .error ERROR_CLOSED := by
  exact ⟨by decide, by decide⟩

end Cocoon
